import Mathlib

/-!
Verification of the Subaru "legacy" (preglobal) safety module
(`board/safety/safety_subaru_legacy.h`): the receive hook, the transmit
hook with its real-time torque rate limiter, and the bus-forwarding hook.

The module's external collaborators (CAN field accessors, the signed
conversion, the numeric limit-check primitives, the address/cadence
validator, the ambient relay-malfunction flag and the microsecond clock)
are not part of this file of the repository; they are modelled from the
specification of their interfaces.  The validator verdict, the relay flag
and the clock reading are passed to the hooks as explicit parameters.
-/

namespace Panda

/-- A decoded CAN frame: address, source bus, data length code, and the
eight payload bytes (each reduced modulo 256 by the byte accessor). -/
structure CANFrame where
  addr : Nat
  bus : Nat
  len : Nat
  bytes : Fin 8 → Nat

/-- Build a frame from a list of payload bytes (missing bytes read 0). -/
def mkFrame (addr bus len : Nat) (l : List Nat) : CANFrame :=
  ⟨addr, bus, len, fun i => l.getD i.val 0⟩

/-- Modelled from the spec: frame field accessor GET_BYTE, one payload
byte (an 8-bit value). -/
def GET_BYTE (f : CANFrame) (i : Fin 8) : Nat :=
  f.bytes i % 256

/-- Modelled from the spec: frame field accessor GET_BYTES_04, payload
bytes 0..3 as a little-endian 32-bit word. -/
def GET_BYTES_04 (f : CANFrame) : Nat :=
  GET_BYTE f 0 + 2 ^ 8 * GET_BYTE f 1 + 2 ^ 16 * GET_BYTE f 2 + 2 ^ 24 * GET_BYTE f 3

/-- Modelled from the spec: frame field accessor GET_BYTES_48, payload
bytes 4..7 as a little-endian 32-bit word. -/
def GET_BYTES_48 (f : CANFrame) : Nat :=
  GET_BYTE f 4 + 2 ^ 8 * GET_BYTE f 5 + 2 ^ 16 * GET_BYTE f 6 + 2 ^ 24 * GET_BYTE f 7

/-- Modelled from the spec: signed conversion of a `bits`-bit field
(two's-complement sign extension). -/
def to_signed (d : Nat) (bits : Nat) : Int :=
  if d < 2 ^ (bits - 1) then (d : Int) else (d : Int) - 2 ^ bits

/-- Modelled from the spec: check_absolute_bound — a violation fires when
the value lies outside the closed interval [min_val, max_val]. -/
def max_limit_check (val max_val min_val : Int) : Bool :=
  decide (max_val < val) || decide (val < min_val)

/-- Modelled from the spec: check_driver_aware_rate — the change from the
last accepted torque must stay within the rate-up/rate-down limits, unless
the driver applies a counter-torque beyond the allowance threshold, in
which case the tolerated delta is enlarged by the factor-scaled driver
torque. -/
def driver_limit_check (val val_last driver _max_val max_rate_up max_rate_down allowance factor : Int) : Bool :=
  let delta := val - val_last
  let slack := if decide (allowance < |driver|) then factor * |driver| else 0
  !(decide (delta ≤ max_rate_up + slack) && decide (-(max_rate_down + slack) ≤ delta))

/-- Modelled from the spec: check_realtime_delta — a violation fires when
the magnitude of change from the anchor value exceeds the fixed real-time
delta bound. -/
def rt_rate_limit_check (val rt_last max_delta : Int) : Bool :=
  decide (max_delta < |val - rt_last|)

/-- Modelled from the spec: elapsed microseconds between two readings of
the wrapping 32-bit monotonic clock. -/
def get_ts_elapsed (ts ts_last : Nat) : Nat :=
  (2 ^ 32 + ts % 2 ^ 32 - ts_last % 2 ^ 32) % 2 ^ 32

/-- Modelled from the spec: the Torque Sample Tracker holds the most
recent valid driver-torque sample; update_sample replaces it. -/
def update_sample (_sample torque_new : Int) : Int :=
  torque_new

/-- An entry of the transmit allow-list: address, bus, data length. -/
structure CanMsg where
  addr : Nat
  bus : Nat
  len : Nat

/-- Modelled from the spec: is_message_allowed — the outbound frame must
match an allow-list entry exactly in address, bus and length. -/
def msg_allowed (f : CANFrame) (msgs : List CanMsg) : Bool :=
  msgs.any fun m => f.addr == m.addr && f.bus == m.bus && f.len == m.len

def SUBARU_L_MAX_STEER : Int := 2047

def SUBARU_L_MAX_RT_DELTA : Int := 940

def SUBARU_L_RT_INTERVAL : Nat := 250000

def SUBARU_L_MAX_RATE_UP : Int := 50

def SUBARU_L_MAX_RATE_DOWN : Int := 70

def SUBARU_L_DRIVER_TORQUE_ALLOWANCE : Int := 60

def SUBARU_L_DRIVER_TORQUE_FACTOR : Int := 10

def SUBARU_L_STANDSTILL_THRSLD : Nat := 20

def SUBARU_L_BRAKE_THRSLD : Nat := 2

def SUBARU_L_TX_MSGS : List CanMsg :=
  [⟨0x161, 0, 8⟩, ⟨0x164, 0, 8⟩, ⟨0x140, 2, 8⟩]

/-- The module's mutable state touched by the three hooks: the controls
state machine, the rate-limiter anchors, the driver-torque sample, the
vehicle-motion flags, and the sign-flip configuration bit. -/
structure SubaruState where
  controls_allowed : Bool
  cruise_engaged_prev : Bool
  desired_torque_last : Int
  rt_torque_last : Int
  ts_last : Nat
  torque_driver : Int
  vehicle_moving : Bool
  brake_pressed : Bool
  gas_pressed : Bool
  subaru_l_flip_driver_torque : Bool
  deriving DecidableEq, Repr

/-- The cruise-engaged bit of a cruise-status frame: bit 1 of payload
byte 6. -/
def subaru_cruise_bit (f : CANFrame) : Bool :=
  ((GET_BYTE f 6) >>> 1) &&& 1 == 1

/-- The desired steering torque decoded by the transmit hook from a
steering-command frame: the 13-bit field at bits 8..20 of the first
payload word, sign-extended and negated per platform convention. -/
def subaru_decoded_torque (to_send : CANFrame) : Int :=
  -1 * to_signed ((GET_BYTES_04 to_send >>> 8) &&& 0x1FFF) 13

/-- subaru_legacy_rx_hook.  The verdict of the external address/cadence
validator (addr_safety_check) is passed in as `valid`; the hook returns
the verdict together with the updated module state. -/
def subaru_legacy_rx_hook (valid : Bool) (to_push : CANFrame) (s : SubaruState) : Bool × SubaruState :=
  if valid && to_push.bus == 0 then
    let addr := to_push.addr
    let s1 :=
      if addr == 0x371 then
        let torque_driver_raw := ((GET_BYTE to_push 3) >>> 5) + ((GET_BYTE to_push 4) <<< 3)
        let torque_driver_sgn := to_signed torque_driver_raw 11
        let torque_driver_new :=
          if s.subaru_l_flip_driver_torque then -1 * torque_driver_sgn else torque_driver_sgn
        { s with torque_driver := update_sample s.torque_driver torque_driver_new }
      else s
    let s2 :=
      if addr == 0x144 then
        let cruise_engaged := subaru_cruise_bit to_push
        let ca1 := if cruise_engaged && !s1.cruise_engaged_prev then true else s1.controls_allowed
        let ca2 := if !cruise_engaged then false else ca1
        { s1 with controls_allowed := ca2, cruise_engaged_prev := cruise_engaged }
      else s1
    let s3 :=
      if addr == 0xD4 then
        let subaru_speed := ((GET_BYTES_04 to_push >>> 16) &&& 0xFFFF + (GET_BYTES_48 to_push &&& 0xFFFF)) / 2
        { s2 with vehicle_moving := decide (SUBARU_L_STANDSTILL_THRSLD < subaru_speed) }
      else s2
    let s4 :=
      if addr == 0xD1 then
        { s3 with brake_pressed := decide (SUBARU_L_BRAKE_THRSLD < GET_BYTE to_push 2) }
      else s3
    let s5 :=
      if addr == 0x140 then
        { s4 with gas_pressed := GET_BYTE to_push 0 != 0 }
      else s4
    (valid, s5)
  else
    (valid, s)

/-- subaru_legacy_tx_hook.  The ambient relay-malfunction flag and the
microsecond clock reading `ts` are passed in as parameters; the hook
returns the allow/deny verdict together with the updated module state. -/
def subaru_legacy_tx_hook (relay_malfunction : Bool) (ts : Nat) (to_send : CANFrame) (s : SubaruState) : Bool × SubaruState :=
  let tx0 := true
  let tx1 := if !(msg_allowed to_send SUBARU_L_TX_MSGS) then false else tx0
  let tx2 := if relay_malfunction then false else tx1
  if to_send.addr == 0x164 then
    let desired_torque := subaru_decoded_torque to_send
    let res :=
      if s.controls_allowed then
        let violation0 := false
        let violation1 := violation0 || max_limit_check desired_torque SUBARU_L_MAX_STEER (-SUBARU_L_MAX_STEER)
        let violation2 := violation1 || driver_limit_check desired_torque s.desired_torque_last s.torque_driver SUBARU_L_MAX_STEER SUBARU_L_MAX_RATE_UP SUBARU_L_MAX_RATE_DOWN SUBARU_L_DRIVER_TORQUE_ALLOWANCE SUBARU_L_DRIVER_TORQUE_FACTOR
        let s1 := { s with desired_torque_last := desired_torque }
        let violation3 := violation2 || rt_rate_limit_check desired_torque s1.rt_torque_last SUBARU_L_MAX_RT_DELTA
        let ts_elapsed := get_ts_elapsed ts s1.ts_last
        let s2 :=
          if ts_elapsed > SUBARU_L_RT_INTERVAL then
            { s1 with rt_torque_last := desired_torque, ts_last := ts }
          else s1
        (violation3, s2)
      else
        (false, s)
    let violation4 := if !s.controls_allowed && desired_torque != 0 then true else res.1
    let s3 :=
      if violation4 || !s.controls_allowed then
        { res.2 with desired_torque_last := 0, rt_torque_last := 0, ts_last := ts }
      else res.2
    let tx3 := if violation4 then false else tx2
    (tx3, s3)
  else
    (tx2, s)

/-- The violation flag computed by the transmit hook on a
steering-command frame, as a standalone function of the frame and the
pre-state (the hook's interleaved state updates and the clock reading do
not feed back into the three checks). -/
def subaru_tx_violation (to_send : CANFrame) (s : SubaruState) : Bool :=
  let desired_torque := subaru_decoded_torque to_send
  let violation :=
    if s.controls_allowed then
      max_limit_check desired_torque SUBARU_L_MAX_STEER (-SUBARU_L_MAX_STEER)
      || driver_limit_check desired_torque s.desired_torque_last s.torque_driver SUBARU_L_MAX_STEER SUBARU_L_MAX_RATE_UP SUBARU_L_MAX_RATE_DOWN SUBARU_L_DRIVER_TORQUE_ALLOWANCE SUBARU_L_DRIVER_TORQUE_FACTOR
      || rt_rate_limit_check desired_torque s.rt_torque_last SUBARU_L_MAX_RT_DELTA
    else false
  if !s.controls_allowed && desired_torque != 0 then true else violation

/-- subaru_legacy_fwd_hook.  The ambient relay-malfunction flag is passed
in as a parameter; returns the destination bus, or -1 for "do not
forward". -/
def subaru_legacy_fwd_hook (relay_malfunction : Bool) (bus_num : Int) (to_fwd : CANFrame) : Int :=
  let bus_fwd : Int := -1
  let addr := to_fwd.addr
  if !relay_malfunction then
    let fwd0 := if bus_num == 0 then (if addr == 0x140 then bus_fwd else 2) else bus_fwd
    let fwd2 := if bus_num == 2 then (if addr == 0x161 || addr == 0x164 then fwd0 else 0) else fwd0
    fwd2
  else
    bus_fwd

/-! Concrete frames and states used to witness the theorems below. -/

/-- A steering-command frame whose decoded desired torque is 2100. -/
def frame_steer_2100 : CANFrame := mkFrame 0x164 0 8 [0, 0xCC, 0x17, 0, 0, 0, 0, 0]

/-- A steering-command frame whose decoded desired torque is 10. -/
def frame_steer_10 : CANFrame := mkFrame 0x164 0 8 [0, 0xF6, 0x1F, 0, 0, 0, 0, 0]

/-- A steering-command frame like frame_steer_10 but offered on bus 1 with length 4. -/
def frame_steer_10_bus1 : CANFrame := mkFrame 0x164 1 4 [0, 0xF6, 0x1F, 0, 0, 0, 0, 0]

/-- A cruise-status frame whose cruise-engaged bit (bit 1 of byte 6) is set. -/
def frame_cruise_on : CANFrame := mkFrame 0x144 0 8 [0, 0, 0, 0, 0, 0, 2, 0]

/-- A driver-torque status frame with payload byte 3 = 0x80 and byte 4 = 0. -/
def frame_driver_torque : CANFrame := mkFrame 0x371 0 8 [0, 0, 0, 0x80, 0, 0, 0, 0]

/-- A state with controls allowed and all anchors neutral. -/
def state_engaged : SubaruState := ⟨true, true, 0, 0, 0, 0, false, false, false, false⟩

/-- A state with controls not allowed and all anchors neutral. -/
def state_idle : SubaruState := ⟨false, false, 0, 0, 0, 0, false, false, false, false⟩

/-- C7: when the external address validator reports invalid, the receive
hook returns the invalid verdict and leaves the whole module state
unchanged (driver-torque sample, controls_allowed, cruise_engaged_prev,
vehicle_moving, brake_pressed, gas_pressed all keep their prior values). -/
theorem subaru_rx_invalid_no_update (f : CANFrame) (s : SubaruState) :
    subaru_legacy_rx_hook false f s = (false, s) := by
  rfl

/-- C5: whenever relay_malfunction is asserted, the transmit hook denies
every frame and the forwarding hook forwards nothing, regardless of the
frame address, bus, length or payload and of the module state. -/
theorem subaru_relay_malfunction_denies_all (ts : Nat) (f : CANFrame) (s : SubaruState) (bus : Int) :
    (subaru_legacy_tx_hook true ts f s).1 = false ∧ subaru_legacy_fwd_hook true bus f = -1 := by
  constructor
  · simp only [subaru_legacy_tx_hook]
    split <;> simp
  · rfl

/-- C6: with relay_malfunction clear, the forwarding hook maps bus 0 to
bus 2 for every address except the throttle address 0x140, maps bus 2 to
bus 0 for every address except 0x161 and 0x164, and forwards nothing from
any other source bus. -/
theorem subaru_fwd_routing (bus : Int) (f : CANFrame) :
    subaru_legacy_fwd_hook false bus f =
      if bus = 0 then (if f.addr = 0x140 then -1 else 2)
      else if bus = 2 then (if f.addr = 0x161 ∨ f.addr = 0x164 then -1 else 0)
      else -1 := by
  by_cases h0 : bus = 0
  · subst h0
    by_cases ha : f.addr = 0x140 <;> simp [subaru_legacy_fwd_hook, ha]
  · by_cases h2 : bus = 2
    · subst h2
      by_cases ha : f.addr = 0x161 ∨ f.addr = 0x164 <;>
        simp [subaru_legacy_fwd_hook, ha]
    · simp [subaru_legacy_fwd_hook, h0, h2]

/-- C1: on a steering-command frame (address 0x164), whenever the
magnitude of the decoded desired torque exceeds MAX_STEER (2047), the
transmit hook denies the frame — via the absolute bound check when
controls are allowed, and via the nonzero-torque rule when they are not. -/
theorem subaru_tx_denies_over_max_steer (relay : Bool) (ts : Nat) (f : CANFrame) (s : SubaruState)
    (hf : f.addr = 0x164) (ht : 2047 < (subaru_decoded_torque f).natAbs) :
    (subaru_legacy_tx_hook relay ts f s).1 = false := by
  have hne : subaru_decoded_torque f ≠ 0 := by omega
  have hmax : max_limit_check (subaru_decoded_torque f) SUBARU_L_MAX_STEER (-SUBARU_L_MAX_STEER) = true := by
    simp only [max_limit_check, SUBARU_L_MAX_STEER, Bool.or_eq_true, decide_eq_true_eq]
    omega
  cases hca : s.controls_allowed <;>
    simp [subaru_legacy_tx_hook, hf, hca, hmax, hne]

/-- Witness for C1: the torque-2100 frame is denied both with controls
allowed and with controls not allowed. -/
theorem subaru_tx_denies_over_max_steer_witness :
    frame_steer_2100.addr = 0x164 ∧ 2047 < (subaru_decoded_torque frame_steer_2100).natAbs
    ∧ (subaru_legacy_tx_hook false 5 frame_steer_2100 state_engaged).1 = false
    ∧ (subaru_legacy_tx_hook false 5 frame_steer_2100 state_idle).1 = false :=
  ⟨by decide, by decide,
   subaru_tx_denies_over_max_steer false 5 frame_steer_2100 state_engaged (by decide) (by decide),
   subaru_tx_denies_over_max_steer false 5 frame_steer_2100 state_idle (by decide) (by decide)⟩

/-- C2: on a steering-command frame, when controls_allowed is false and
the decoded desired torque is nonzero, the transmit hook denies the
frame. -/
theorem subaru_tx_denies_nonzero_when_not_allowed (relay : Bool) (ts : Nat) (f : CANFrame) (s : SubaruState)
    (hf : f.addr = 0x164) (hca : s.controls_allowed = false)
    (ht : subaru_decoded_torque f ≠ 0) :
    (subaru_legacy_tx_hook relay ts f s).1 = false := by
  simp [subaru_legacy_tx_hook, hf, hca, ht]

/-- Witness for C2: a torque-10 command with controls not allowed is
denied. -/
theorem subaru_tx_denies_nonzero_when_not_allowed_witness :
    frame_steer_10.addr = 0x164 ∧ state_idle.controls_allowed = false
    ∧ subaru_decoded_torque frame_steer_10 ≠ 0
    ∧ (subaru_legacy_tx_hook false 5 frame_steer_10 state_idle).1 = false :=
  ⟨by decide, by decide, by decide,
   subaru_tx_denies_nonzero_when_not_allowed false 5 frame_steer_10 state_idle rfl rfl (by decide)⟩

/-- C3: on a valid cruise-status frame (address 0x144, bus 0), the
receive hook stores the cruise-engaged bit into cruise_engaged_prev,
clears controls_allowed whenever the bit reads 0 (regardless of its
prior value), sets controls_allowed on a 0-to-1 transition of the bit,
and controls_allowed can hold afterwards only if it already held or such
a transition occurred. -/
theorem subaru_rx_cruise_edge_controls (f : CANFrame) (s : SubaruState)
    (hf : f.addr = 0x144) (hb : f.bus = 0) :
    ((subaru_legacy_rx_hook true f s).2.cruise_engaged_prev = subaru_cruise_bit f)
    ∧ (subaru_cruise_bit f = false → (subaru_legacy_rx_hook true f s).2.controls_allowed = false)
    ∧ (subaru_cruise_bit f = true → s.cruise_engaged_prev = false →
        (subaru_legacy_rx_hook true f s).2.controls_allowed = true)
    ∧ ((subaru_legacy_rx_hook true f s).2.controls_allowed = true →
        s.controls_allowed = true ∨ (subaru_cruise_bit f = true ∧ s.cruise_engaged_prev = false)) := by
  cases hbit : subaru_cruise_bit f <;>
    cases hprev : s.cruise_engaged_prev <;>
    cases hca : s.controls_allowed <;>
    simp [subaru_legacy_rx_hook, hf, hb, hbit, hprev, hca]

/-- Witness for C3: a cruise-status frame with the engaged bit set takes
the idle state (bit previously 0, controls not allowed) to controls
allowed, and records the bit. -/
theorem subaru_rx_cruise_edge_controls_witness :
    frame_cruise_on.addr = 0x144 ∧ frame_cruise_on.bus = 0
    ∧ (((subaru_legacy_rx_hook true frame_cruise_on state_idle).2.cruise_engaged_prev = subaru_cruise_bit frame_cruise_on)
       ∧ (subaru_cruise_bit frame_cruise_on = false → (subaru_legacy_rx_hook true frame_cruise_on state_idle).2.controls_allowed = false)
       ∧ (subaru_cruise_bit frame_cruise_on = true → state_idle.cruise_engaged_prev = false →
           (subaru_legacy_rx_hook true frame_cruise_on state_idle).2.controls_allowed = true)
       ∧ ((subaru_legacy_rx_hook true frame_cruise_on state_idle).2.controls_allowed = true →
           state_idle.controls_allowed = true ∨ (subaru_cruise_bit frame_cruise_on = true ∧ state_idle.cruise_engaged_prev = false))) :=
  ⟨by decide, by decide, subaru_rx_cruise_edge_controls frame_cruise_on state_idle rfl rfl⟩

/-- C4: on a steering-command frame, whenever a violation check fires or
controls_allowed is false, the transmit hook leaves the rate-limiter
state at the neutral baseline: desired_torque_last = 0, rt_torque_last =
0, and ts_last equal to the timestamp read during the call. -/
theorem subaru_tx_reset_on_violation (relay : Bool) (ts : Nat) (f : CANFrame) (s : SubaruState)
    (hf : f.addr = 0x164)
    (h : subaru_tx_violation f s = true ∨ s.controls_allowed = false) :
    ((subaru_legacy_tx_hook relay ts f s).2.desired_torque_last = 0)
    ∧ ((subaru_legacy_tx_hook relay ts f s).2.rt_torque_last = 0)
    ∧ ((subaru_legacy_tx_hook relay ts f s).2.ts_last = ts) := by
  cases hca : s.controls_allowed
  · simp [subaru_legacy_tx_hook, hf, hca]
  · have hv : subaru_tx_violation f s = true := by
      rcases h with hv | hfalse
      · exact hv
      · rw [hca] at hfalse
        exact absurd hfalse (by simp)
    simp [subaru_tx_violation, hca] at hv
    rcases hv with (hv | hv) | hv <;> simp [subaru_legacy_tx_hook, hf, hca, hv]

/-- Witness for C4: the torque-2100 command with controls allowed fires
the absolute-bound violation and resets the rate-limiter state to the
neutral baseline with the call's timestamp. -/
theorem subaru_tx_reset_on_violation_witness :
    (subaru_tx_violation frame_steer_2100 state_engaged = true ∨ state_engaged.controls_allowed = false)
    ∧ ((subaru_legacy_tx_hook false 5 frame_steer_2100 state_engaged).2.desired_torque_last = 0)
    ∧ ((subaru_legacy_tx_hook false 5 frame_steer_2100 state_engaged).2.rt_torque_last = 0)
    ∧ ((subaru_legacy_tx_hook false 5 frame_steer_2100 state_engaged).2.ts_last = 5) :=
  ⟨Or.inl (by decide),
   subaru_tx_reset_on_violation false 5 frame_steer_2100 state_engaged rfl (Or.inl (by decide))⟩

/-- C8 as stated is false: with ts_last = 0 and the clock at exactly
RT_INTERVAL = 250000 microseconds, at least RT_INTERVAL microseconds have
elapsed, yet on a no-violation torque-10 command the transmit hook
leaves the anchor untouched (rt_torque_last stays 0, not the decoded
torque 10, and ts_last stays 0): the code rolls the anchor forward only
when strictly more than RT_INTERVAL microseconds have elapsed. -/
theorem subaru_rt_rollover_cex :
    SUBARU_L_RT_INTERVAL ≤ get_ts_elapsed 250000 state_engaged.ts_last
    ∧ state_engaged.controls_allowed = true
    ∧ subaru_tx_violation frame_steer_10 state_engaged = false
    ∧ ¬ ((subaru_legacy_tx_hook false 250000 frame_steer_10 state_engaged).2.rt_torque_last
          = subaru_decoded_torque frame_steer_10
         ∧ (subaru_legacy_tx_hook false 250000 frame_steer_10 state_engaged).2.ts_last = 250000) := by
  decide

/-- C8 amended: on a steering-command frame with controls_allowed true
and strictly more than RT_INTERVAL microseconds elapsed since ts_last,
the hook sets ts_last to the current timestamp, and sets rt_torque_last
to the decoded desired torque whenever no violation occurred (on a
violation the subsequent reset overrides rt_torque_last to 0). -/
theorem subaru_tx_rt_rollover_amended (relay : Bool) (ts : Nat) (f : CANFrame) (s : SubaruState)
    (hf : f.addr = 0x164) (hca : s.controls_allowed = true)
    (he : SUBARU_L_RT_INTERVAL < get_ts_elapsed ts s.ts_last) :
    ((subaru_legacy_tx_hook relay ts f s).2.ts_last = ts)
    ∧ (subaru_tx_violation f s = false →
        (subaru_legacy_tx_hook relay ts f s).2.rt_torque_last = subaru_decoded_torque f) := by
  constructor
  · simp only [subaru_legacy_tx_hook, hf, hca]
    simp [he]
    split <;> simp
  · intro hv
    simp [subaru_tx_violation, hca] at hv
    obtain ⟨⟨h1, h2⟩, h3⟩ := hv
    simp [subaru_legacy_tx_hook, hf, hca, he, h1, h2, h3]

/-- Witness for C8 amended: at clock 250001 with ts_last = 0, the anchor
rolls forward to the torque-10 command. -/
theorem subaru_tx_rt_rollover_amended_witness :
    frame_steer_10.addr = 0x164 ∧ state_engaged.controls_allowed = true
    ∧ SUBARU_L_RT_INTERVAL < get_ts_elapsed 250001 state_engaged.ts_last
    ∧ ((subaru_legacy_tx_hook false 250001 frame_steer_10 state_engaged).2.ts_last = 250001)
    ∧ (subaru_tx_violation frame_steer_10 state_engaged = false →
        (subaru_legacy_tx_hook false 250001 frame_steer_10 state_engaged).2.rt_torque_last
          = subaru_decoded_torque frame_steer_10) :=
  ⟨by decide, by decide, by decide,
   (subaru_tx_rt_rollover_amended false 250001 frame_steer_10 state_engaged rfl rfl (by decide)).1,
   (subaru_tx_rt_rollover_amended false 250001 frame_steer_10 state_engaged rfl rfl (by decide)).2⟩

/-- The driver-torque value exactly as claim C9 words it, for refinement
comparison: the field formed from the low 3 bits of the high nibble of
payload byte 3 (bits 4..6 of the byte) combined with all 8 bits of
payload byte 4 shifted into the upper positions, sign-extended over 11
bits, negated exactly when the flip flag is set. -/
def claim_driver_torque (f : CANFrame) (flip : Bool) : Int :=
  let field := ((GET_BYTE f 3 >>> 4) &&& 0x7) + (GET_BYTE f 4) * 2 ^ 3
  if flip then -(to_signed field 11) else to_signed field 11

/-- The driver-torque value per the amended claim C9: the field formed
from the high 3 bits of payload byte 3 (the byte shifted right by 5)
combined with all 8 bits of payload byte 4 shifted into the upper
positions, sign-extended over 11 bits, negated exactly when the flip
flag is set. -/
def amended_driver_torque (f : CANFrame) (flip : Bool) : Int :=
  let field := (GET_BYTE f 3) / 2 ^ 5 + (GET_BYTE f 4) * 2 ^ 3
  if flip then -(to_signed field 11) else to_signed field 11

/-- C9 as stated is false: on a valid driver-torque frame with payload
byte 3 = 0x80 and byte 4 = 0, the receive hook stores 4 (it uses the
high 3 bits of byte 3, here 100b), while the field built from the low 3
bits of the high nibble of byte 3 would be 0. -/
theorem subaru_driver_torque_claim_cex :
    frame_driver_torque.addr = 0x371 ∧ frame_driver_torque.bus = 0
    ∧ (subaru_legacy_rx_hook true frame_driver_torque state_idle).2.torque_driver
        ≠ claim_driver_torque frame_driver_torque state_idle.subaru_l_flip_driver_torque := by
  decide

/-- C9 amended: on a valid driver-torque status frame (address 0x371,
bus 0), the receive hook feeds the torque sample tracker with the 11-bit
sign-extension of the field formed from the high 3 bits of payload byte
3 combined with all 8 bits of payload byte 4, negated exactly when the
flip-driver-torque configuration flag is set. -/
theorem subaru_rx_driver_torque_amended (f : CANFrame) (s : SubaruState)
    (hf : f.addr = 0x371) (hb : f.bus = 0) :
    (subaru_legacy_rx_hook true f s).2.torque_driver
      = amended_driver_torque f s.subaru_l_flip_driver_torque := by
  cases hflip : s.subaru_l_flip_driver_torque <;>
    simp [subaru_legacy_rx_hook, amended_driver_torque, update_sample, hf, hb, hflip,
      Nat.shiftRight_eq_div_pow, Nat.shiftLeft_eq]

/-- Witness for C9 amended: the byte-3 = 0x80 frame yields sample 4. -/
theorem subaru_rx_driver_torque_amended_witness :
    frame_driver_torque.addr = 0x371 ∧ frame_driver_torque.bus = 0
    ∧ (subaru_legacy_rx_hook true frame_driver_torque state_idle).2.torque_driver
        = amended_driver_torque frame_driver_torque state_idle.subaru_l_flip_driver_torque :=
  ⟨by decide, by decide, subaru_rx_driver_torque_amended frame_driver_torque state_idle rfl rfl⟩

/-- C10: on a steering-command frame the transmit hook's state mutation
(torque decode, violation checks, rate-limiter updates including the
reset-to-neutral rule) depends only on the payload bytes, the controls
state and the clock: two frames with address 0x164 and identical payloads
produce identical post-states from the same pre-state even if they
differ in bus or length, and regardless of the relay-malfunction flag —
those denials affect only the returned verdict. -/
theorem subaru_tx_state_mutation_independent (r1 r2 : Bool) (ts : Nat) (f g : CANFrame) (s : SubaruState)
    (hf : f.addr = 0x164) (hg : g.addr = 0x164) (hbytes : f.bytes = g.bytes) :
    (subaru_legacy_tx_hook r1 ts f s).2 = (subaru_legacy_tx_hook r2 ts g s).2 := by
  have hb04 : GET_BYTES_04 f = GET_BYTES_04 g := by
    simp [GET_BYTES_04, GET_BYTE, hbytes]
  have ht : subaru_decoded_torque f = subaru_decoded_torque g := by
    simp [subaru_decoded_torque, hb04]
  simp [subaru_legacy_tx_hook, hf, hg, ht]

/-- Witness for C10: the torque-10 frame on bus 0 with length 8 (allowed)
and the same payload offered on bus 1 with length 4 (denied by the
allow-list), one with the relay flag set and one without, mutate the
state identically. -/
theorem subaru_tx_state_mutation_independent_witness :
    frame_steer_10.addr = 0x164 ∧ frame_steer_10_bus1.addr = 0x164
    ∧ frame_steer_10.bytes = frame_steer_10_bus1.bytes
    ∧ (subaru_legacy_tx_hook true 5 frame_steer_10 state_engaged).2
        = (subaru_legacy_tx_hook false 5 frame_steer_10_bus1 state_engaged).2 :=
  ⟨rfl, rfl, rfl,
   subaru_tx_state_mutation_independent true false 5 frame_steer_10 frame_steer_10_bus1 state_engaged rfl rfl rfl⟩

end Panda
